import Mathlib

/-!
Verification of the mev-oracle reconciliation pipeline against its
specification.

The development shallowly embeds the Go sources of the repository:

* `pkg/settler` (src/unnamed/part_002): settlement types, the nonce
  computation of `getTransactOpts`, the per-settlement body of
  `settlementExecutor`, and the supervision structure of `Settler.Start`.
* `pkg/node/node.go`: the lagging L1 client wrapper `laggerdL1Client`.
* `pkg/updater` (implementation absent from the sources; its behaviour is
  modelled from the specification, constrained by the updater tests in
  src/unnamed/part_001): commitment processing, bundle matching and the
  decay computation.

Machine integers are embedded as `Nat`/`Int` with explicit reductions
modulo `2 ^ 64` exactly where the Go code converts between `int64` and
`uint64` or relies on `uint64` wrap-around.
-/

/-! ## Settler data model (src/unnamed/part_002, lines 21-42) -/

/-- Number of pending transactions above which the executor refuses a round
(`allowedPendingTxnCount = 128`, part_002 line 22). -/
def allowedPendingTxnCount : Nat := 128

/-- Batch size used by the return executor (`batchSize = 10`, part_002 line 23). -/
def returnBatchSize : Nat := 10

/-- Settlement type enum (part_002 lines 26-32).  The Go constant
`SettlementTypeReturn` is named `ret` here because `return` is reserved. -/
inductive SettlementType where
  | reward
  | slash
  | ret
  deriving DecidableEq

/-- The settler's `Settlement` struct (part_002 lines 34-42).  Byte slices
are embedded as lists of bytes; note that the struct carries no decay
percentage and no window. -/
structure Settlement where
  commitmentIdx : List Nat
  txHash : String
  blockNum : Int
  builder : String
  amount : Nat
  bidID : List Nat
  type : SettlementType
  deriving DecidableEq

/-! ## Nonce computation of getTransactOpts (part_002 lines 115-149) -/

/-- Go conversion `uint64(x)` of an `int64` value `x`: two's-complement
reinterpretation, i.e. reduction modulo `2 ^ 64`. -/
def int64ToUInt64 (x : Int) : Nat := (x % (2 : Int) ^ 64).toNat

/-- Transaction options assembled by `getTransactOpts`
(part_002 lines 115-149): big.Int gas values are embedded as `Int`. -/
structure TransactOpts where
  nonce : Nat
  gasFeeCap : Int
  gasTipCap : Int
  deriving DecidableEq

/-- The pure content of `Settler.getTransactOpts` (part_002 lines 115-149).
`pendingNonce` is the `uint64` returned by `client.PendingNonceAt`;
`lastNonce` is the `int64` returned by `settlerRegister.LastNonce` (`-1`
when no nonce has been recorded).  The code runs
`if nonce <= uint64(usedNonce) { nonce = uint64(usedNonce + 1) }` and sets
`GasFeeCap = gasTip + gasPrice`, `GasTipCap = gasTip`. -/
def getTransactOpts (pendingNonce : Nat) (lastNonce : Int) (gasTip gasPrice : Int) : TransactOpts :=
  { nonce :=
      if pendingNonce ≤ int64ToUInt64 lastNonce then int64ToUInt64 (lastNonce + 1)
      else pendingNonce
    gasFeeCap := gasTip + gasPrice
    gasTipCap := gasTip }

/-! ## Settlement executor body (part_002 lines 205-295) -/

/-- Go `copy(commitmentIdx[:], settlement.CommitmentIdx)` into a zeroed
32-byte array: the first 32 bytes of the slice, padded with zeros. -/
def toBytes32 (b : List Nat) : List Nat := b.take 32 ++ List.replicate (32 - b.length) 0

/-- Observable actions of one round of the settlement executor, in
program order (part_002 lines 221-286). -/
inductive SettlerAction where
  | logReturn (commitmentIdx : List Nat)
  | pendingTxnCount
  | oracleProcess (commitmentIdx : List Nat) (blockNum : Int) (builder : String) (isSlash : Bool)
  | settlementInitiated (bidIDs : List (List Nat)) (nonce : Nat)
  deriving DecidableEq

/-- Whether an action is the on-chain `ProcessBuilderCommitmentForBlockNumber` call. -/
def SettlerAction.isOracleProcess : SettlerAction → Bool
  | .oracleProcess _ _ _ _ => true
  | _ => false

/-- Whether an action is the `PendingTxnCount` store read. -/
def SettlerAction.isPendingTxnCount : SettlerAction → Bool
  | .pendingTxnCount => true
  | _ => false

/-- Whether an action is the `SettlementInitiated` store write. -/
def SettlerAction.isSettlementInitiated : SettlerAction → Bool
  | .settlementInitiated _ _ => true
  | _ => false

/-- Result of one round of the settlement executor: the actions performed
and the error returned by the closure (part_002 lines 221-286). -/
structure ExecResult where
  actions : List SettlerAction
  error : Option String
  deriving DecidableEq

/-- The per-settlement closure of `Settler.settlementExecutor`
(part_002 lines 221-286).  `pendingTxns` is the value returned by
`PendingTxnCount`; `txnNonce` is the nonce of the submitted transaction.
A RETURN settlement is logged and the closure returns nil before any store
read or transaction (lines 225-230); otherwise the executor checks the
pending-transaction count, calls the oracle with
`(commitmentIdx, blockNum, builder, isSlash)` (lines 252-258) and records
`SettlementInitiated([settlement.BidID], hash, nonce)` (lines 263-268). -/
def processSettlement (s : Settlement) (pendingTxns : Nat) (txnNonce : Nat) : ExecResult :=
  if s.type = SettlementType.ret then
    { actions := [SettlerAction.logReturn s.commitmentIdx], error := none }
  else if allowedPendingTxnCount < pendingTxns then
    { actions := [SettlerAction.pendingTxnCount], error := some "too many pending txns" }
  else
    { actions :=
        [SettlerAction.pendingTxnCount,
         SettlerAction.oracleProcess (toBytes32 s.commitmentIdx) s.blockNum s.builder
           (decide (s.type = SettlementType.slash)),
         SettlerAction.settlementInitiated [s.bidID] txnNonce]
      error := none }

/-! ## Executor loop and supervision structure (part_002 lines 205-219, 287-295, 380-405) -/

/-- Events the settlement-executor loop reacts to (part_002 lines 210-293). -/
inductive ExecutorEvent where
  | ctxDone
  | chanClosed
  | settlementMsg (s : Settlement) (pendingTxns : Nat) (txnNonce : Nat)

/-- What the settlement-executor loop does next after an event. -/
inductive ExecutorNext where
  | exitLoop
  | resubscribe (sleepMs : Nat)
  | continueLoop
  deriving DecidableEq

/-- Control flow of the `settlementExecutor` loop (part_002 lines 205-295):
context cancellation returns `ctx.Err()`; a closed subscription channel
jumps to RESTART without sleeping; a processing error unsubscribes, sleeps
5 seconds and jumps to RESTART; a successful round continues the loop. -/
def settlementExecutorStep : ExecutorEvent → ExecutorNext
  | ExecutorEvent.ctxDone => ExecutorNext.exitLoop
  | ExecutorEvent.chanClosed => ExecutorNext.resubscribe 0
  | ExecutorEvent.settlementMsg s p n =>
      if (processSettlement s p n).error = none then ExecutorNext.continueLoop
      else ExecutorNext.resubscribe 5000

/-- The three tasks `Settler.Start` runs under its error group
(part_002 lines 385-395). -/
inductive SettlerTask where
  | settlementUpdater
  | settlementExecutor
  | returnExecutor
  deriving DecidableEq

/-- Task list of `Settler.Start` (part_002 lines 383-395). -/
def settlerStartTasks : List SettlerTask :=
  [SettlerTask.settlementUpdater, SettlerTask.settlementExecutor, SettlerTask.returnExecutor]

/-- What the supervising goroutine of `Settler.Start` does once the error
group has terminated. -/
inductive SupervisorAction where
  | restartGroup (delayMs : Nat)
  | closeDone
  deriving DecidableEq

/-- Outcome of the supervising goroutine of `Settler.Start`
(part_002 lines 397-402): it waits for the group once, logs the error if
any, and closes `doneChan`.  There is no loop around `eg.Wait()`. -/
structure SupervisorExit where
  logsError : Bool
  action : SupervisorAction
  deriving DecidableEq

/-- Behaviour of `Settler.Start` after the error group exits
(part_002 lines 397-402), as a function of whether `eg.Wait()` returned an
error. -/
def settlerStartOnGroupExit (groupErr : Bool) : SupervisorExit :=
  { logsError := groupErr, action := SupervisorAction.closeDone }

/-! ## Lagging L1 client (src/pkg/node/node.go lines 332-344) -/

/-- The `BlockNumber` method of `laggerdL1Client` (node.go lines 337-344):
Go computes `blkNum - uint64(l.amount)` in `uint64` arithmetic, which wraps
modulo `2 ^ 64`.  `head` is the underlying client's block number (a
`uint64`) and `amount` the configured lag (a non-negative Go `int`,
converted to `uint64`). -/
def laggerdBlockNumber (head : Nat) (amount : Nat) : Nat :=
  (head + (2 ^ 64 - amount % 2 ^ 64)) % 2 ^ 64

/-! ## Updater model

The updater implementation (`pkg/updater`) is not among the sources; only
its tests (src/unnamed/part_001) and its callers are.  Per the
specification (§4.5) the updater, on a `CommitmentStored` event, checks
the committer against the registered winner, matches the claimed
transaction hashes against the L1 block's transactions, computes the decay
percentage, and calls `AddSettlement`.  The model below follows the
specification's words except where the repository's own tests pin down a
different behaviour; each deviation is noted at the definition it
concerns. -/

/-- Splitting of the comma-separated `txn_hash` field of a commitment
(spec §4.5 step 4: "Comma-separated list of N hashes"). -/
def splitHashes (s : String) : List String :=
  (s.toList.splitOn ',').map List.asString

/-- Modelled from the spec: the linear-scan bundle matcher of §4.5
("REWARD iff there exist indices i₁<i₂<…<iₙ with t_iₖ.hash = hₖ for all k.
Linear scan.").  Greedily matches the claimed hashes against the block's
transaction hashes in order. -/
def matchBundle : List String → List String → Bool
  | [], _ => true
  | _ :: _, [] => false
  | h :: rest, t :: ts => if h = t then matchBundle rest ts else matchBundle (h :: rest) ts

/-- Modelled from the spec: the decay computation of §4.5 step 5.
All three quantities are `uint64` millisecond timestamps, embedded as
`Nat`; the division is integer division. -/
def computeDecay (decayStart decayEnd blockTs : Nat) : Nat :=
  if blockTs ≤ decayStart then 100
  else if decayEnd ≤ blockTs then 0
  else 100 * (decayEnd - blockTs) / (decayEnd - decayStart)

/-- The decoded `CommitmentStored` event (spec §6; field set from the test
events built in part_001 lines 98-151).  Addresses and 32-byte values are
embedded as byte lists, the `txn_hash` field as the raw comma-separated
string, and the millisecond decay bounds as `Nat`. -/
structure CommitmentStoredEvent where
  commitmentIndex : List Nat
  committer : List Nat
  txnHash : String
  blockNumber : Int
  commitmentHash : List Nat
  decayStartTimeStamp : Nat
  decayEndTimeStamp : Nat
  blockCommitedAt : Nat
  deriving DecidableEq

/-- A registered winner (updater.Winner in part_001 lines 153-160: builder
address bytes and window). -/
structure Winner where
  winner : List Nat
  window : Int
  deriving DecidableEq

/-- Arguments of one `AddSettlement` store call, taken from the
`testWinnerRegister.AddSettlement` signature in part_001 lines 452-463:
`(commitmentIdx, txHash, blockNum, amount, builder, bidID, settlementType,
decayPercentage, window)`. -/
structure AddSettlementCall where
  commitmentIdx : List Nat
  txHash : String
  blockNum : Int
  amount : Nat
  builder : List Nat
  bidID : List Nat
  settlementType : SettlementType
  decayPercentage : Int
  window : Int
  deriving DecidableEq

/-- Modelled from the spec: the updater's `CommitmentStored` handler
(§4.5), as the settlement it hands to `AddSettlement`, with two
test-forced corrections.  `l1Txs` are the transaction hashes of L1 block
`blockNumber`; `l1BlockTime` is that block's header time; `l2BlockTime` is
the header time of the settlement-chain block at which the commitment was
committed.  Deviations from the spec's words, both forced by the updater
tests in src/unnamed/part_001 (the authoritative code):

* a commitment whose committer differs from the winner produces no
  settlement at all (TestUpdater lines 229-267 reads exactly one
  settlement per matching-committer commitment, in publication order, and
  skips the mismatched ones, so any settlement emitted for those would be
  delivered to the wrong iteration);
* the decay percentage is computed from the settlement-chain (L2) block
  timestamp, not the L1 one (TestUpdater gives the L1 block a zero header
  time and the L2 block the midpoint time, lines 162-170, and expects
  decay 50, line 260), and is 0 for a SLASH settlement
  (TestUpdaterBundlesFailure line 402 and spec §8 scenario 2). -/
def updaterProcessCommitment (c : CommitmentStoredEvent) (w : Winner)
    (l1Txs : List String) (l1BlockTime l2BlockTime : Nat) : Option AddSettlementCall :=
  if c.committer ≠ w.winner then none
  else
    some
      { commitmentIdx := c.commitmentIndex
        txHash := c.txnHash
        blockNum := c.blockNumber
        amount := 0
        builder := c.committer
        bidID := c.commitmentHash
        settlementType :=
          if matchBundle (splitHashes c.txnHash) l1Txs = true then SettlementType.reward
          else SettlementType.slash
        decayPercentage :=
          if matchBundle (splitHashes c.txnHash) l1Txs = true then
            (computeDecay c.decayStartTimeStamp c.decayEndTimeStamp l2BlockTime : Int)
          else 0
        window := w.window }

/-- Modelled from the spec: the same handler but following §4.5 step 3 to
the letter ("If committer ≠ winner.builder: emit Settlement(RETURN) and
stop").  Used to compare the spec's words against the behaviour the
repository's tests require. -/
def specProcessCommitment (c : CommitmentStoredEvent) (w : Winner)
    (l1Txs : List String) (l1BlockTime l2BlockTime : Nat) : Option AddSettlementCall :=
  if c.committer ≠ w.winner then
    some
      { commitmentIdx := c.commitmentIndex
        txHash := c.txnHash
        blockNum := c.blockNumber
        amount := 0
        builder := c.committer
        bidID := c.commitmentHash
        settlementType := SettlementType.ret
        decayPercentage := 0
        window := w.window }
  else updaterProcessCommitment c w l1Txs l1BlockTime l2BlockTime

/-- Modelled from the spec: the store (§4.1) persists each `AddSettlement`
row and `SubscribeSettlements` later delivers it to the settler as a
`Settlement` value.  The settler's `Settlement` struct (part_002 lines
34-42) fixes the delivered fields; the builder address bytes are rendered
as a string by `builderStr`.  The row's decay percentage and window have
no counterpart field to land in. -/
def storeDeliver (builderStr : List Nat → String) (a : AddSettlementCall) : Settlement :=
  { commitmentIdx := a.commitmentIdx
    txHash := a.txHash
    blockNum := a.blockNum
    builder := builderStr a.builder
    amount := a.amount
    bidID := a.bidID
    type := a.settlementType }

/-! ## The TestUpdater scenario (src/unnamed/part_001)

Concrete data mirroring the updater tests.  The ten signed transactions of
the test are embedded as the ten distinct hash strings `t0` … `t9` (the
tests only rely on the hashes being distinct and on their positions in the
block), the 32-byte commitment index of commitment `i` as the byte list
`[i]`, and the addresses `0xabcd` / `0xabdc` as their byte lists. -/

/-- Builder address `0xabcd` of the tests (part_001 line 71). -/
def testBuilderAddr : List Nat := [171, 205]

/-- The mismatching committer address `0xabdc` (part_001 line 72). -/
def testOtherAddr : List Nat := [171, 220]

/-- Hash string standing for the test transaction of index `i`. -/
def testTxHash (i : Nat) : String := "t" ++ toString i

/-- Transaction hashes of the test's L1 block 5, which carries all ten
transactions (part_001 lines 162-165). -/
def testBlockTxs : List String := (List.range 10).map testTxHash

/-- The registered winner of the tests: builder `0xabcd`, window 1
(part_001 lines 153-160). -/
def testWinner : Winner := { winner := testBuilderAddr, window := 1 }

/-- Decay start timestamp of the tests (part_001 line 62). -/
def testDecayStart : Nat := 1615195200000

/-- Decay end timestamp: start plus 5 seconds (part_001 line 64). -/
def testDecayEnd : Nat := 1615195205000

/-- Header time of the test's L2 block: start plus 2.5 seconds
(part_001 lines 63, 167-170). -/
def testL2HeaderTime : Nat := 1615195202500

/-- Header time of the test's L1 block: the header literal
`types.Header{}` leaves `Time` at zero (part_001 line 164). -/
def testL1HeaderTime : Nat := 0

/-- Decay percentage TestUpdater requires of every delivered settlement
(part_001 lines 260-262). -/
def testUpdaterExpectedDecay : Nat := 50

/-- Single-hash commitment `i` of TestUpdater (part_001 lines 89-120):
commitment index `i`, committer `0xabcd` for even `i` and `0xabdc` for odd
`i`, the claimed hash of transaction `i`, block 5. -/
def testSingleCommitment (i : Nat) : CommitmentStoredEvent :=
  { commitmentIndex := [i]
    committer := if i % 2 = 0 then testBuilderAddr else testOtherAddr
    txnHash := testTxHash i
    blockNumber := 5
    commitmentHash := [i]
    decayStartTimeStamp := testDecayStart
    decayEndTimeStamp := testDecayEnd
    blockCommitedAt := 0 }

/-- Bundle commitment `i` of TestUpdater (part_001 lines 122-151):
commitment index `10 + i`, committer `0xabcd`, and the claimed hashes of
transactions `i`, `i+1`, …, `9` joined with commas. -/
def testBundleCommitment (i : Nat) : CommitmentStoredEvent :=
  { commitmentIndex := [10 + i]
    committer := testBuilderAddr
    txnHash := String.intercalate "," ((List.range (10 - i)).map (fun j => testTxHash (i + j)))
    blockNumber := 5
    commitmentHash := [i]
    decayStartTimeStamp := testDecayStart
    decayEndTimeStamp := testDecayEnd
    blockCommitedAt := 0 }

/-- The twenty commitments TestUpdater publishes, in publication order
(part_001 lines 86-151, 229-231). -/
def testCommitments : List CommitmentStoredEvent :=
  (List.range 10).map testSingleCommitment ++ (List.range 10).map testBundleCommitment

/-- The commitments for which TestUpdater waits for a settlement: the loop
at part_001 lines 229-237 skips exactly those whose committer is
`0xabdc`. -/
def testCheckedCommitments : List CommitmentStoredEvent :=
  testCommitments.filter (fun c => decide (c.committer ≠ testOtherAddr))

/-- Reversed bundle commitment `i` (1 ≤ i ≤ 9) of TestUpdaterBundlesFailure
(part_001 lines 305-327): the claimed hashes are transaction `i` followed
by transactions `10 - i`, `9 - i`, …, `1`, a relative order the block does
not realise. -/
def testFailureBundleCommitment (i : Nat) : CommitmentStoredEvent :=
  { commitmentIndex := [i]
    committer := testBuilderAddr
    txnHash :=
      String.intercalate ","
        (testTxHash i :: ((List.range (10 - i)).map (fun j => testTxHash (10 - i - j))))
    blockNumber := 5
    commitmentHash := [i]
    decayStartTimeStamp := testDecayStart
    decayEndTimeStamp := testDecayEnd
    blockCommitedAt := 0 }

/-- The nine commitments TestUpdaterBundlesFailure publishes (part_001
lines 306-327, loop `for i := 1; i < 10; i++`). -/
def testFailureCommitments : List CommitmentStoredEvent :=
  (List.range 9).map (fun i => testFailureBundleCommitment (i + 1))

/-! ## Witness and counterexample fixtures -/

/-- Settlement-row fixture for the C2 counterexample: the TestUpdater
reward row for commitment 0, parameterised by the decay percentage and
window the updater computed. -/
def c2Row (decay window : Int) : AddSettlementCall :=
  { commitmentIdx := [0]
    txHash := testTxHash 0
    blockNum := 5
    amount := 0
    builder := testBuilderAddr
    bidID := [0]
    settlementType := SettlementType.reward
    decayPercentage := decay
    window := window }

/-- Rendering of builder address bytes as a string, standing for the
store's encoding when it hands rows to the settler. -/
def c2BuilderString (b : List Nat) : String :=
  String.intercalate "," (b.map (fun x => toString x))

/-- A concrete non-RETURN settlement, as delivered to the settlement
executor for the TestUpdater reward row of commitment 0. -/
def sampleRewardSettlement : Settlement :=
  { commitmentIdx := [0]
    txHash := testTxHash 0
    blockNum := 5
    builder := c2BuilderString testBuilderAddr
    amount := 0
    bidID := [0]
    type := SettlementType.reward }

/-- A concrete RETURN settlement for the C7 witness. -/
def sampleReturnSettlement : Settlement :=
  { commitmentIdx := [3]
    txHash := testTxHash 3
    blockNum := 5
    builder := c2BuilderString testOtherAddr
    amount := 0
    bidID := [3]
    type := SettlementType.ret }

/-- A bundle commitment in the shape of spec §8 scenario 4: the claimed
hashes `t3,t5,t7` occur in the test block in that relative order but not
contiguously.  Used as the C3 witness input. -/
def c3WitnessCommitment : CommitmentStoredEvent :=
  { commitmentIndex := [30]
    committer := testBuilderAddr
    txnHash := "t3,t5,t7"
    blockNumber := 5
    commitmentHash := [30]
    decayStartTimeStamp := testDecayStart
    decayEndTimeStamp := testDecayEnd
    blockCommitedAt := 0 }

/-- Commitment 1 of TestUpdater (committer `0xabdc`, not the winner), used
as the C4 witness input. -/
def c4WitnessCommitment : CommitmentStoredEvent := testSingleCommitment 1

/-! ## Bundle matching theory -/

/-- The greedy linear scan `matchBundle` succeeds exactly when the claimed
hashes form a (not necessarily contiguous) sublist of the block's
transaction hashes. -/
theorem matchBundle_iff_sublist (ts claimed : List String) :
    matchBundle claimed ts = true ↔ List.Sublist claimed ts := by
  induction ts generalizing claimed with
  | nil =>
    cases claimed with
    | nil => exact iff_of_true rfl (List.nil_sublist _)
    | cons h rest =>
      constructor
      · intro hc
        exact Bool.noConfusion hc
      · intro hsub
        cases hsub
  | cons t ts ih =>
    cases claimed with
    | nil => exact iff_of_true rfl (List.nil_sublist _)
    | cons h rest =>
      show (if h = t then matchBundle rest ts else matchBundle (h :: rest) ts) = true ↔ _
      by_cases heq : h = t
      · subst heq
        rw [if_pos rfl, ih rest]
        constructor
        · intro hsub
          exact List.Sublist.cons₂ h hsub
        · intro hsub
          exact List.cons_sublist_cons.mp hsub
      · rw [if_neg heq, ih (h :: rest)]
        constructor
        · intro hsub
          exact List.Sublist.cons t hsub
        · intro hsub
          cases hsub with
          | cons _ h2 => exact h2
          | cons₂ h2 => exact absurd rfl heq

/-- Sublists are exactly the lists obtained by reading off a strictly
monotone choice of indices. -/
theorem sublist_iff_strictMono_get {α : Type} (l l' : List α) :
    List.Sublist l l' ↔
      ∃ f : Fin l.length → Fin l'.length, StrictMono f ∧ ∀ k, l.get k = l'.get (f k) := by
  rw [List.sublist_iff_exists_fin_orderEmbedding_get_eq]
  constructor
  · rintro ⟨f, hf⟩
    exact ⟨f, f.strictMono, hf⟩
  · rintro ⟨f, hmono, hf⟩
    exact ⟨OrderEmbedding.ofStrictMono f hmono, hf⟩

/-! ## Validation of the updater model against the repository's tests -/

/-- On the twenty commitments of TestUpdater, the modelled updater
produces settlements for exactly the commitments the test waits on, in
order, each with the fields the test asserts (part_001 lines 242-265):
the published commitment index, transaction hashes, block 5, the
committer as builder, amount 0, type REWARD, decay 50, window 1. -/
theorem updaterModel_matches_TestUpdater :
    testCommitments.filterMap
        (fun c => updaterProcessCommitment c testWinner testBlockTxs testL1HeaderTime testL2HeaderTime) =
      testCheckedCommitments.map
        (fun c =>
          { commitmentIdx := c.commitmentIndex
            txHash := c.txnHash
            blockNum := 5
            amount := 0
            builder := c.committer
            bidID := c.commitmentHash
            settlementType := SettlementType.reward
            decayPercentage := (testUpdaterExpectedDecay : Int)
            window := 1 }) := by
  decide

/-- On the nine reversed bundles of TestUpdaterBundlesFailure, the
modelled updater produces, in order, settlements with type SLASH and
decay 0 (part_001 lines 383-407). -/
theorem updaterModel_matches_TestUpdaterBundlesFailure :
    testFailureCommitments.filterMap
        (fun c => updaterProcessCommitment c testWinner testBlockTxs testL1HeaderTime testL2HeaderTime) =
      testFailureCommitments.map
        (fun c =>
          { commitmentIdx := c.commitmentIndex
            txHash := c.txnHash
            blockNum := 5
            amount := 0
            builder := c.committer
            bidID := c.commitmentHash
            settlementType := SettlementType.slash
            decayPercentage := 0
            window := 1 }) := by
  decide

/-! ## Claim C1 -/

/-- C1, counterexample.  The claim says `getTransactOpts` assigns
`max(rpc.PendingNonce, store.LastNonce) + 1`, strictly greater than both
inputs.  With a pending nonce of 5 and a last recorded nonce of 3 the code
assigns 5, which is not strictly greater than the pending nonce (the
claim would require 6). -/
theorem c1_nonce_counterexample :
    (getTransactOpts 5 3 1 1).nonce = 5 ∧ ¬ 5 < (getTransactOpts 5 3 1 1).nonce := by
  decide

/-- C1, amended.  For every state of the settler with a recorded last
nonce `l ≥ 0`, `getTransactOpts` assigns the nonce
`max(rpc.PendingNonce, store.LastNonce + 1)`: strictly greater than the
store's last recorded nonce and at least — but not necessarily strictly
greater than — the RPC pending nonce. -/
theorem c1_nonce_max (p : Nat) (l : Int) (gasTip gasPrice : Int)
    (h0 : 0 ≤ l) (h1 : l + 1 < 2 ^ 64) (hp : p < 2 ^ 64) :
    (getTransactOpts p l gasTip gasPrice).nonce = max p (l.toNat + 1) ∧
    l.toNat < (getTransactOpts p l gasTip gasPrice).nonce ∧
    p ≤ (getTransactOpts p l gasTip gasPrice).nonce := by
  have hu : int64ToUInt64 l = l.toNat := by
    unfold int64ToUInt64
    omega
  have hu1 : int64ToUInt64 (l + 1) = l.toNat + 1 := by
    unfold int64ToUInt64
    omega
  unfold getTransactOpts
  simp only [hu, hu1]
  by_cases hle : p ≤ l.toNat
  · rw [if_pos hle]
    omega
  · rw [if_neg hle]
    omega

/-- C1, witness for the amended theorem at pending nonce 5, last nonce 3:
the assigned nonce is `max 5 4 = 5`. -/
theorem c1_nonce_max_witness :
    (0 ≤ (3 : Int) ∧ (3 : Int) + 1 < 2 ^ 64 ∧ (5 : Nat) < 2 ^ 64) ∧
    ((getTransactOpts 5 3 1 1).nonce = max 5 ((3 : Int).toNat + 1) ∧
      (3 : Int).toNat < (getTransactOpts 5 3 1 1).nonce ∧
      5 ≤ (getTransactOpts 5 3 1 1).nonce) :=
  ⟨⟨by decide, by decide, by decide⟩,
    c1_nonce_max 5 3 1 1 (by decide) (by decide) (by decide)⟩

/-! ## Claim C9 -/

/-- C9.  When the settler register's `LastNonce` returns `-1` (no nonce
recorded yet), the Go comparison `nonce <= uint64(usedNonce)` converts
`-1` to `2^64 - 1`, so it holds for every possible pending nonce, and the
assigned nonce is `uint64(-1 + 1) = 0` regardless of the RPC value. -/
theorem c9_negative_nonce_zero (p : Nat) (gasTip gasPrice : Int) (hp : p < 2 ^ 64) :
    (getTransactOpts p (-1) gasTip gasPrice).nonce = 0 := by
  have hu : int64ToUInt64 (-1) = 2 ^ 64 - 1 := by
    unfold int64ToUInt64
    decide
  have hu1 : int64ToUInt64 (-1 + 1) = 0 := by
    unfold int64ToUInt64
    decide
  unfold getTransactOpts
  simp only [hu, hu1]
  rw [if_pos (by omega)]

/-- C9, witness at the large pending nonce 987654321: the assigned nonce
is still 0. -/
theorem c9_negative_nonce_zero_witness :
    (987654321 : Nat) < 2 ^ 64 ∧ (getTransactOpts 987654321 (-1) 1 1).nonce = 0 :=
  ⟨by decide, c9_negative_nonce_zero 987654321 1 1 (by decide)⟩

/-! ## Claim C10 -/

/-- C10.  `laggerdL1Client.BlockNumber` returns `(head - k) mod 2^64`:
when the underlying head is at least the lag it returns `head - k`, and
when the head is smaller than the lag the `uint64` subtraction wraps
around to `2^64 + head - k`, a very large value, rather than returning
zero or an error. -/
theorem c10_laggerd_wrap (head k : Nat) (hh : head < 2 ^ 64) (hk : k < 2 ^ 64) :
    ((laggerdBlockNumber head k : Nat) : Int) = ((head : Int) - k) % 2 ^ 64 ∧
    (k ≤ head → laggerdBlockNumber head k = head - k) ∧
    (head < k →
      laggerdBlockNumber head k = 2 ^ 64 + head - k ∧
      head < laggerdBlockNumber head k ∧
      laggerdBlockNumber head k ≠ 0) := by
  unfold laggerdBlockNumber
  refine ⟨by omega, fun hle => by omega, fun hlt => ⟨by omega, by omega, by omega⟩⟩

/-- C10, witness at head 5 and lag 7: the result wraps to
`2^64 - 2 = 18446744073709551614`. -/
theorem c10_laggerd_wrap_witness :
    ((5 : Nat) < 2 ^ 64 ∧ (7 : Nat) < 2 ^ 64 ∧ 5 < 7) ∧
    laggerdBlockNumber 5 7 = 18446744073709551614 :=
  ⟨⟨by decide, by decide, by decide⟩,
    by
      have h := (c10_laggerd_wrap 5 7 (by decide) (by decide)).2.2 (by decide)
      calc laggerdBlockNumber 5 7 = 2 ^ 64 + 5 - 7 := h.1
        _ = 18446744073709551614 := by decide⟩

/-! ## Claim C2 -/

/-- C2, counterexample.  The claim says the settlement executor passes the
commitment's decay percentage and window to
`ProcessBuilderCommitmentForBlockNumber`.  Two updater rows that differ
exactly in decay percentage (50 vs 0) and window (1 vs 2) reach the
executor as the same `Settlement` value and produce identical rounds —
identical oracle-call actions included — so the on-chain call receives
neither quantity.  The `Oracle` interface of the settler (part_002 lines
66-75) indeed has no decay or window parameter. -/
theorem c2_decay_window_not_passed :
    ((c2Row 50 1).decayPercentage ≠ (c2Row 0 2).decayPercentage ∧
      (c2Row 50 1).window ≠ (c2Row 0 2).window) ∧
    processSettlement (storeDeliver c2BuilderString (c2Row 50 1)) 0 7 =
      processSettlement (storeDeliver c2BuilderString (c2Row 0 2)) 0 7 := by
  decide

/-- C2, amended.  For every non-RETURN settlement processed under the
pending-transaction bound, the executor calls
`ProcessBuilderCommitmentForBlockNumber` with exactly the arguments
`(idx, block, builder, isSlash)`; no decay percentage and no window are
passed. -/
theorem c2_oracle_call_args (s : Settlement) (p n : Nat)
    (hret : s.type ≠ SettlementType.ret) (hp : p ≤ allowedPendingTxnCount) :
    (processSettlement s p n).actions =
      [SettlerAction.pendingTxnCount,
       SettlerAction.oracleProcess (toBytes32 s.commitmentIdx) s.blockNum s.builder
         (decide (s.type = SettlementType.slash)),
       SettlerAction.settlementInitiated [s.bidID] n] ∧
    (processSettlement s p n).error = none := by
  unfold processSettlement
  rw [if_neg hret, if_neg (by omega)]
  exact ⟨rfl, rfl⟩

/-- C2, witness for the amended theorem at the TestUpdater reward
settlement for commitment 0 with 0 pending transactions and nonce 7. -/
theorem c2_oracle_call_args_witness :
    (sampleRewardSettlement.type ≠ SettlementType.ret ∧ 0 ≤ allowedPendingTxnCount) ∧
    ((processSettlement sampleRewardSettlement 0 7).actions =
        [SettlerAction.pendingTxnCount,
         SettlerAction.oracleProcess (toBytes32 sampleRewardSettlement.commitmentIdx)
           sampleRewardSettlement.blockNum sampleRewardSettlement.builder
           (decide (sampleRewardSettlement.type = SettlementType.slash)),
         SettlerAction.settlementInitiated [sampleRewardSettlement.bidID] 7] ∧
      (processSettlement sampleRewardSettlement 0 7).error = none) :=
  ⟨⟨by decide, by decide⟩,
    c2_oracle_call_args sampleRewardSettlement 0 7 (by decide) (by decide)⟩

/-! ## Claim C7 -/

/-- C7.  For every settlement of type RETURN delivered to the settlement
executor, the round only logs: it performs no oracle call, no
`PendingTxnCount` read and no `SettlementInitiated` write, returns no
error, and the executor loop simply continues with the stream. -/
theorem c7_return_no_submission (s : Settlement) (p n : Nat)
    (h : s.type = SettlementType.ret) :
    (processSettlement s p n).error = none ∧
    (processSettlement s p n).actions = [SettlerAction.logReturn s.commitmentIdx] ∧
    (∀ a ∈ (processSettlement s p n).actions,
      a.isOracleProcess = false ∧ a.isPendingTxnCount = false ∧
        a.isSettlementInitiated = false) ∧
    settlementExecutorStep (ExecutorEvent.settlementMsg s p n) = ExecutorNext.continueLoop := by
  have hres : processSettlement s p n =
      { actions := [SettlerAction.logReturn s.commitmentIdx], error := none } := by
    unfold processSettlement
    rw [if_pos h]
  refine ⟨by rw [hres], by rw [hres], ?_, ?_⟩
  · intro a ha
    rw [hres] at ha
    rcases List.mem_singleton.mp ha with rfl
    exact ⟨rfl, rfl, rfl⟩
  · show (if (processSettlement s p n).error = none then ExecutorNext.continueLoop
        else ExecutorNext.resubscribe 5000) = ExecutorNext.continueLoop
    rw [hres]
    rfl

/-- C7, witness at a concrete RETURN settlement with 0 pending
transactions and nonce 7. -/
theorem c7_return_no_submission_witness :
    sampleReturnSettlement.type = SettlementType.ret ∧
    ((processSettlement sampleReturnSettlement 0 7).error = none ∧
      (processSettlement sampleReturnSettlement 0 7).actions =
        [SettlerAction.logReturn sampleReturnSettlement.commitmentIdx] ∧
      (∀ a ∈ (processSettlement sampleReturnSettlement 0 7).actions,
        a.isOracleProcess = false ∧ a.isPendingTxnCount = false ∧
          a.isSettlementInitiated = false) ∧
      settlementExecutorStep (ExecutorEvent.settlementMsg sampleReturnSettlement 0 7) =
        ExecutorNext.continueLoop) :=
  ⟨by decide, c7_return_no_submission sampleReturnSettlement 0 7 (by decide)⟩

/-! ## Claim C8 -/

/-- C8, counterexample.  The claim says that after the error group
terminates with an error, the group is restarted after a short delay.  In
the code the goroutine around `eg.Wait()` (part_002 lines 397-402) logs
the error and closes `doneChan`; there is no restart for any delay. -/
theorem c8_no_group_restart :
    (settlerStartOnGroupExit true).action = SupervisorAction.closeDone ∧
    ¬ ∃ d, (settlerStartOnGroupExit true).action = SupervisorAction.restartGroup d := by
  refine ⟨rfl, ?_⟩
  rintro ⟨d, hcontr⟩
  exact SupervisorAction.noConfusion hcontr

/-- C8, amended.  `Settler.Start` runs the confirmer
(`settlementUpdater`), the settlement executor and the return executor
under one error group (whose context cancels the sibling tasks when one
task fails); per-settlement processing errors never terminate the
executor task — its loop re-subscribes, after a 5-second sleep — and the
executor returns only on context cancellation.  Once the group
terminates, the supervising goroutine logs any error and closes the done
channel permanently; the group is not restarted. -/
theorem c8_supervision_structure :
    settlerStartTasks =
      [SettlerTask.settlementUpdater, SettlerTask.settlementExecutor,
       SettlerTask.returnExecutor] ∧
    (∀ e : Bool, (settlerStartOnGroupExit e).action = SupervisorAction.closeDone ∧
      (settlerStartOnGroupExit e).logsError = e) ∧
    settlementExecutorStep ExecutorEvent.ctxDone = ExecutorNext.exitLoop ∧
    (∀ s p n, settlementExecutorStep (ExecutorEvent.settlementMsg s p n) ≠
      ExecutorNext.exitLoop) ∧
    settlementExecutorStep ExecutorEvent.chanClosed = ExecutorNext.resubscribe 0 := by
  refine ⟨rfl, fun e => ⟨rfl, rfl⟩, rfl, ?_, rfl⟩
  intro s p n
  show (if (processSettlement s p n).error = none then ExecutorNext.continueLoop
      else ExecutorNext.resubscribe 5000) ≠ ExecutorNext.exitLoop
  by_cases he : (processSettlement s p n).error = none
  · rw [if_pos he]
    exact fun hcontr => ExecutorNext.noConfusion hcontr
  · rw [if_neg he]
    exact fun hcontr => ExecutorNext.noConfusion hcontr

/-- C8, witness instantiating the universally quantified part at a
concrete settlement: a processing round never exits the executor loop. -/
theorem c8_supervision_structure_witness :
    settlementExecutorStep (ExecutorEvent.settlementMsg sampleRewardSettlement 200 7) ≠
      ExecutorNext.exitLoop :=
  c8_supervision_structure.2.2.2.1 sampleRewardSettlement 200 7

/-! ## Claim C3 -/

/-- C3.  For every commitment whose committer equals the registered
winner, the modelled updater produces a settlement whose type is REWARD
exactly when the claimed hashes (the comma-separated `txn_hash` field,
split) occur in the L1 block's transaction list at strictly increasing
indices with matching hashes, and SLASH otherwise. -/
theorem c3_bundle_matching (c : CommitmentStoredEvent) (w : Winner)
    (l1Txs : List String) (l1BlockTime l2BlockTime : Nat)
    (h : c.committer = w.winner) :
    ∃ row, updaterProcessCommitment c w l1Txs l1BlockTime l2BlockTime = some row ∧
      (row.settlementType = SettlementType.reward ↔
        ∃ f : Fin (splitHashes c.txnHash).length → Fin l1Txs.length,
          StrictMono f ∧ ∀ k, (splitHashes c.txnHash).get k = l1Txs.get (f k)) ∧
      (row.settlementType = SettlementType.slash ↔
        ¬ ∃ f : Fin (splitHashes c.txnHash).length → Fin l1Txs.length,
          StrictMono f ∧ ∀ k, (splitHashes c.txnHash).get k = l1Txs.get (f k)) := by
  have hcond :
      matchBundle (splitHashes c.txnHash) l1Txs = true ↔
        ∃ f : Fin (splitHashes c.txnHash).length → Fin l1Txs.length,
          StrictMono f ∧ ∀ k, (splitHashes c.txnHash).get k = l1Txs.get (f k) :=
    (matchBundle_iff_sublist l1Txs (splitHashes c.txnHash)).trans
      (sublist_iff_strictMono_get (splitHashes c.txnHash) l1Txs)
  unfold updaterProcessCommitment
  rw [if_neg (fun hne => hne h)]
  refine ⟨_, rfl, ?_, ?_⟩
  · show (if matchBundle (splitHashes c.txnHash) l1Txs = true then SettlementType.reward
        else SettlementType.slash) = SettlementType.reward ↔ _
    by_cases hm : matchBundle (splitHashes c.txnHash) l1Txs = true
    · rw [if_pos hm]
      exact iff_of_true rfl (hcond.mp hm)
    · rw [if_neg hm]
      exact iff_of_false (fun hcontr => SettlementType.noConfusion hcontr)
        (fun hex => hm (hcond.mpr hex))
  · show (if matchBundle (splitHashes c.txnHash) l1Txs = true then SettlementType.reward
        else SettlementType.slash) = SettlementType.slash ↔ _
    by_cases hm : matchBundle (splitHashes c.txnHash) l1Txs = true
    · rw [if_pos hm]
      exact iff_of_false (fun hcontr => SettlementType.noConfusion hcontr)
        (fun hno => hno (hcond.mp hm))
    · rw [if_neg hm]
      exact iff_of_true rfl (fun hex => hm (hcond.mpr hex))

/-- C3, witness at the scenario-4 shaped bundle `t3,t5,t7` against the
test block `t0 … t9`: the commitment's committer is the winner and the
characterisation holds. -/
theorem c3_bundle_matching_witness :
    c3WitnessCommitment.committer = testWinner.winner ∧
    (∃ row,
      updaterProcessCommitment c3WitnessCommitment testWinner testBlockTxs
          testL1HeaderTime testL2HeaderTime = some row ∧
      (row.settlementType = SettlementType.reward ↔
        ∃ f : Fin (splitHashes c3WitnessCommitment.txnHash).length → Fin testBlockTxs.length,
          StrictMono f ∧
            ∀ k, (splitHashes c3WitnessCommitment.txnHash).get k = testBlockTxs.get (f k)) ∧
      (row.settlementType = SettlementType.slash ↔
        ¬ ∃ f : Fin (splitHashes c3WitnessCommitment.txnHash).length → Fin testBlockTxs.length,
          StrictMono f ∧
            ∀ k, (splitHashes c3WitnessCommitment.txnHash).get k = testBlockTxs.get (f k))) :=
  ⟨by decide, c3_bundle_matching c3WitnessCommitment testWinner testBlockTxs
    testL1HeaderTime testL2HeaderTime (by decide)⟩

/-! ## Claim C4 -/

/-- C4, counterexample.  Under the specification's step 3 behaviour
(`specProcessCommitment`: emit a RETURN settlement on committer
mismatch), the sequence of settlements produced for the twenty TestUpdater
commitments differs from the sequence the test asserts: the test waits for
exactly one settlement per matching-committer commitment, in publication
order (part_001 lines 229-267), and a RETURN row for a mismatched
commitment would be delivered to the wrong iteration. -/
theorem c4_return_contradicts_test :
    (testCommitments.filterMap
        (fun c => specProcessCommitment c testWinner testBlockTxs
          testL1HeaderTime testL2HeaderTime)).map (fun r => r.commitmentIdx) ≠
      testCheckedCommitments.map (fun c => c.commitmentIndex) := by
  decide

/-- C4, amended.  For every `CommitmentStored` event whose committer
differs from the registered winner of its block, the updater produces no
settlement at all — the event is dropped, and in particular no L1
transaction matching and no decay computation affects any emitted
settlement. -/
theorem c4_mismatch_dropped (c : CommitmentStoredEvent) (w : Winner)
    (l1Txs : List String) (l1BlockTime l2BlockTime : Nat)
    (h : c.committer ≠ w.winner) :
    updaterProcessCommitment c w l1Txs l1BlockTime l2BlockTime = none := by
  unfold updaterProcessCommitment
  rw [if_pos h]

/-- C4, witness at commitment 1 of TestUpdater, whose committer `0xabdc`
is not the registered winner `0xabcd`. -/
theorem c4_mismatch_dropped_witness :
    c4WitnessCommitment.committer ≠ testWinner.winner ∧
    updaterProcessCommitment c4WitnessCommitment testWinner testBlockTxs
        testL1HeaderTime testL2HeaderTime = none :=
  ⟨by decide, c4_mismatch_dropped c4WitnessCommitment testWinner testBlockTxs
    testL1HeaderTime testL2HeaderTime (by decide)⟩

/-! ## Claim C5 -/

/-- C5.  For decay bounds with `decay_start < decay_end`, the decay
computation returns 100 at or before `decay_start`, 0 at or after
`decay_end`, the integer `100 * (decay_end - block_ts) / (decay_end -
decay_start)` strictly in between; it always lies in `[0, 100]` (the lower
bound is inherent to `Nat`), and equals 50 at the exact midpoint. -/
theorem c5_decay_formula (s e ts : Nat) (h : s < e) :
    (ts ≤ s → computeDecay s e ts = 100) ∧
    (e ≤ ts → computeDecay s e ts = 0) ∧
    (s < ts → ts < e → computeDecay s e ts = 100 * (e - ts) / (e - s)) ∧
    computeDecay s e ts ≤ 100 ∧
    (ts + ts = s + e → computeDecay s e ts = 50) := by
  refine ⟨?_, ?_, ?_, ?_, ?_⟩
  · intro h1
    unfold computeDecay
    rw [if_pos h1]
  · intro h2
    unfold computeDecay
    rw [if_neg (by omega), if_pos h2]
  · intro h3 h4
    unfold computeDecay
    rw [if_neg (by omega), if_neg (by omega)]
  · unfold computeDecay
    by_cases h1 : ts ≤ s
    · rw [if_pos h1]
    · rw [if_neg h1]
      by_cases h2 : e ≤ ts
      · rw [if_pos h2]
        omega
      · rw [if_neg h2]
        calc 100 * (e - ts) / (e - s) ≤ 100 * (e - s) / (e - s) :=
              Nat.div_le_div_right (by omega)
          _ = 100 := by
              rw [Nat.mul_div_assoc 100 (Nat.dvd_refl _), Nat.div_self (by omega), Nat.mul_one]
  · intro hmid
    unfold computeDecay
    rw [if_neg (by omega), if_neg (by omega)]
    have hd : e - s = 2 * (e - ts) := by omega
    have hn : 100 * (e - ts) = 50 * (2 * (e - ts)) := by ring
    rw [hd, hn, Nat.mul_div_assoc 50 (Nat.dvd_refl _), Nat.div_self (by omega), Nat.mul_one]

/-- C5, witness at the TestUpdater decay bounds and its L2 block time,
the exact midpoint: the computed decay is 50. -/
theorem c5_decay_formula_witness :
    testDecayStart < testDecayEnd ∧
    computeDecay testDecayStart testDecayEnd testL2HeaderTime = 50 ∧
    ((testL2HeaderTime ≤ testDecayStart →
        computeDecay testDecayStart testDecayEnd testL2HeaderTime = 100) ∧
      (testDecayEnd ≤ testL2HeaderTime →
        computeDecay testDecayStart testDecayEnd testL2HeaderTime = 0) ∧
      (testDecayStart < testL2HeaderTime → testL2HeaderTime < testDecayEnd →
        computeDecay testDecayStart testDecayEnd testL2HeaderTime =
          100 * (testDecayEnd - testL2HeaderTime) / (testDecayEnd - testDecayStart)) ∧
      computeDecay testDecayStart testDecayEnd testL2HeaderTime ≤ 100 ∧
      (testL2HeaderTime + testL2HeaderTime = testDecayStart + testDecayEnd →
        computeDecay testDecayStart testDecayEnd testL2HeaderTime = 50)) :=
  ⟨by decide, by decide,
    c5_decay_formula testDecayStart testDecayEnd testL2HeaderTime (by decide)⟩

/-! ## Claim C6 -/

/-- C6, counterexample.  In the TestUpdater scenario the L1 block header
time is zero while the L2 block header carries the midpoint time
(part_001 lines 162-170).  Computing the decay from the L1 block's
timestamp would give 100, contradicting the decay 50 the test requires of
every settlement; the required value is exactly the one computed from the
L2 (settlement-chain) block's timestamp. -/
theorem c6_l1_time_contradicts_test :
    computeDecay testDecayStart testDecayEnd testL1HeaderTime = 100 ∧
    computeDecay testDecayStart testDecayEnd testL2HeaderTime = testUpdaterExpectedDecay ∧
    testUpdaterExpectedDecay ≠ 100 := by
  decide

/-- C6, amended.  The block timestamp entering the updater's decay
computation is the settlement-chain (L2) block's header time, not the L1
block's: the updater's result is unchanged under any change of the L1
block time, and every REWARD settlement carries the decay computed from
the L2 time. -/
theorem c6_decay_uses_l2_time (c : CommitmentStoredEvent) (w : Winner) (l1Txs : List String)
    (t1 t1' t2 : Nat) (h : c.committer = w.winner) :
    updaterProcessCommitment c w l1Txs t1 t2 = updaterProcessCommitment c w l1Txs t1' t2 ∧
    ∀ row, updaterProcessCommitment c w l1Txs t1 t2 = some row →
      row.settlementType = SettlementType.reward →
      row.decayPercentage =
        (computeDecay c.decayStartTimeStamp c.decayEndTimeStamp t2 : Int) := by
  refine ⟨rfl, ?_⟩
  intro row hrow hreward
  unfold updaterProcessCommitment at hrow
  rw [if_neg (fun hne => hne h)] at hrow
  have hr := Option.some.inj hrow
  subst hr
  by_cases hm : matchBundle (splitHashes c.txnHash) l1Txs = true
  · show (if matchBundle (splitHashes c.txnHash) l1Txs = true then
        (computeDecay c.decayStartTimeStamp c.decayEndTimeStamp t2 : Int) else 0) = _
    rw [if_pos hm]
  · exfalso
    have hsl : (if matchBundle (splitHashes c.txnHash) l1Txs = true then SettlementType.reward
        else SettlementType.slash) = SettlementType.reward := hreward
    rw [if_neg hm] at hsl
    exact SettlementType.noConfusion hsl

/-- C6, witness at commitment 0 of TestUpdater: moving the L1 block time
from 0 to an arbitrary other value changes nothing, and the reward row
carries the decay computed from the L2 midpoint time. -/
theorem c6_decay_uses_l2_time_witness :
    (testSingleCommitment 0).committer = testWinner.winner ∧
    (updaterProcessCommitment (testSingleCommitment 0) testWinner testBlockTxs
        testL1HeaderTime testL2HeaderTime =
      updaterProcessCommitment (testSingleCommitment 0) testWinner testBlockTxs
        123456789 testL2HeaderTime ∧
    ∀ row, updaterProcessCommitment (testSingleCommitment 0) testWinner testBlockTxs
        testL1HeaderTime testL2HeaderTime = some row →
      row.settlementType = SettlementType.reward →
      row.decayPercentage =
        (computeDecay (testSingleCommitment 0).decayStartTimeStamp
          (testSingleCommitment 0).decayEndTimeStamp testL2HeaderTime : Int)) :=
  ⟨by decide, c6_decay_uses_l2_time (testSingleCommitment 0) testWinner testBlockTxs
    testL1HeaderTime 123456789 testL2HeaderTime (by decide)⟩
